import Mathlib

/-!
# kubectl-ai: the prompt-to-action pipeline of `cmd/cli/root.go`

Shallow embedding of `InitAndExecute`, `RootCmd`, `run` and
`getUserConfirmation`.

The Go functions are effectful: they call collaborators that live outside
`root.go` (`newOAIClients`, `gptCompletion`, `applyManifest`, the `promptui`
selection, cobra's `Execute`, `flag.Parse`, `fmt.Println`, `os.Exit`).  Each
function is embedded as a pure function from an environment `Env` (the loaded
flags and the answers the collaborators give in this execution) to an `Outcome`: the
returned Go value together with the ordered trace of collaborator calls that
the function made.
-/

namespace KubectlAI

/-- A Go `error` value that is not nil; `Option Error` is a Go `error`, with
`none` for `nil`. -/
structure Error where
  msg : String
deriving DecidableEq, Repr

/-- The fields of `promptui.Select` that `getUserConfirmation` sets. -/
structure Select where
  Label : String
  Items : List String
deriving DecidableEq, Repr

/-- One call to a collaborator, with the arguments it received.  The type `κ`
is the `oaiClients` value built by `newOAIClients`, whose declaration is
outside `root.go`. -/
inductive Event (κ : Type) where
  | newOAIClients : Event κ
  | gptCompletion (oaiClients : κ) (args : List String) (deploymentName : String) : Event κ
  | println (text : String) : Event κ
  | promptRun (prompt : Select) : Event κ
  | applyManifest (completion : String) : Event κ
  | flagParse : Event κ
  | newConfigFlags : Event κ
  | execute : Event κ
deriving DecidableEq, Repr

/-- The value a function returns and the collaborator calls it made, oldest
first. -/
structure Outcome (κ : Type) (α : Type) where
  val : α
  trace : List (Event κ)

/-- The fields of `cobra.Command` that `RootCmd` sets. -/
structure Command (κ : Type) where
  Use : String
  Version : String
  RunE : List String → Outcome κ (Option Error)

/-- The flag values read by `root.go`, and the results the collaborators give
in this execution.  A Go result `(v, err)` is a pair whose last component is
the `error`.
`flagParse` is the outcome of `flag.Parse()` on Go's default flag set, which
ends the process itself on a parse error: `some s` when it exits with status
`s` (2 on an undefined or malformed flag, 0 on `-h`), `none` when it returns.
`collaboratorStdout` is what a collaborator call writes on standard output in
this execution; `promptui` draws the selection there.
`signal.NotifyContext` only produces the context handed to `gptCompletion`;
a cancellation shows as an error answer of `gptCompletion`. -/
structure Env (κ : Type) where
  flagParse : Option Nat
  collaboratorStdout : Event κ → String
  openAIDeploymentName : String
  openAIAPIKey : String
  requireConfirmation : Bool
  newOAIClients : κ × Option Error
  gptCompletion : κ → List String → String → String × Option Error
  promptRun : Select → Int × String × Option Error
  applyManifest : String → Option Error
  cobraExecute : Command κ → Outcome κ (Option Error)

def version : String := "0.0.3"

variable {κ : Type}

/-- Embedding of `getUserConfirmation` (root.go, lines 98-112). -/
def getUserConfirmation (env : Env κ) : Outcome κ (Bool × Option Error) :=
  let result := "Apply"
  if env.requireConfirmation then
    let prompt : Select :=
      { Label := "Would you like to apply this? [Apply/Don't Apply]",
        Items := ["Apply", "Don't Apply"] }
    let (_, result, err) := env.promptRun prompt
    let t : List (Event κ) := [Event.promptRun prompt]
    if err ≠ none then ⟨(false, err), t⟩
    else ⟨(decide (result = "Apply"), none), t⟩
  else ⟨(decide (result = "Apply"), none), []⟩

/-- Embedding of `run` (root.go, lines 68-96). -/
def run (env : Env κ) (args : List String) : Outcome κ (Option Error) :=
  let (oaiClients, err) := env.newOAIClients
  let t1 : List (Event κ) := [Event.newOAIClients]
  if err ≠ none then ⟨err, t1⟩ else
  let (completion, err) := env.gptCompletion oaiClients args env.openAIDeploymentName
  let t2 := t1 ++ [Event.gptCompletion oaiClients args env.openAIDeploymentName]
  if err ≠ none then ⟨err, t2⟩ else
  let text := "✨ Attempting to apply the following manifest: " ++ completion
  let t3 := t2 ++ [Event.println text]
  let r := getUserConfirmation env
  let (conf, err) := r.val
  let t4 := t3 ++ r.trace
  if err ≠ none then ⟨err, t4⟩ else
  if conf then
    let err := env.applyManifest completion
    let t5 := t4 ++ [Event.applyManifest completion]
    if err ≠ none then ⟨err, t5⟩ else ⟨none, t5⟩
  else ⟨none, t4⟩

/-- Embedding of the `RunE` closure of `RootCmd` (root.go, lines 47-58). -/
def RunE (env : Env κ) (args : List String) : Outcome κ (Option Error) :=
  if args.length = 0 then ⟨some ⟨"prompt must be provided"⟩, []⟩
  else
    let r := run env args
    if r.val ≠ none then ⟨r.val, r.trace⟩ else ⟨none, r.trace⟩

/-- Embedding of `RootCmd` (root.go, lines 43-66): builds the command and
creates the kubernetes configuration flags (the one call recorded; registering
the flags on the command is not). -/
def RootCmd (env : Env κ) : Outcome κ (Command κ) :=
  let cmd : Command κ := { Use := "kubectl-ai", Version := version, RunE := RunE env }
  ⟨cmd, [Event.newConfigFlags]⟩

/-- Embedding of `InitAndExecute` (root.go, lines 29-41).  The value is the
status with which the process ends inside the function (through `flag.Parse`
or `os.Exit`), and `none` when the function returns to its caller. -/
def InitAndExecute (env : Env κ) : Outcome κ (Option Nat) :=
  let t0 : List (Event κ) := [Event.flagParse]
  match env.flagParse with
  | some status => ⟨some status, t0⟩
  | none =>
    if env.openAIAPIKey = "" then
      ⟨some 1, t0 ++ [Event.println "Please provide an OpenAI key."]⟩
    else
      let c := RootCmd env
      let r := env.cobraExecute c.val
      let t := t0 ++ c.trace ++ [Event.execute] ++ r.trace
      match r.val with
      | some err => ⟨some 1, t ++ [Event.println err.msg]⟩
      | none => ⟨none, t⟩

/-- The manifests handed to `applyManifest`, in call order. -/
def appliedManifests : List (Event κ) → List String
  | [] => []
  | Event.applyManifest c :: t => c :: appliedManifests t
  | _ :: t => appliedManifests t

/-- The texts handed to `fmt.Println`, in call order. -/
def printedTexts : List (Event κ) → List String
  | [] => []
  | Event.println s :: t => s :: printedTexts t
  | _ :: t => printedTexts t

/-- The selections run by `promptui`, in call order. -/
def promptsRun : List (Event κ) → List Select
  | [] => []
  | Event.promptRun p :: t => p :: promptsRun t
  | _ :: t => promptsRun t

/-- The argument triples of the calls to `gptCompletion`, in call order. -/
def completionCalls : List (Event κ) → List (κ × List String × String)
  | [] => []
  | Event.gptCompletion c a d :: t => (c, a, d) :: completionCalls t
  | _ :: t => completionCalls t

/-- The number of calls to `newOAIClients`. -/
def clientBuilds : List (Event κ) → Nat
  | [] => 0
  | Event.newOAIClients :: t => clientBuilds t + 1
  | _ :: t => clientBuilds t

/-- The bytes one `fmt.Println` call writes on standard output: its text
followed by a newline. -/
def printlnBytes (text : String) : String := text ++ "\n"

/-- The bytes that reach standard output during a trace: what each
`fmt.Println` writes, and what every other collaborator call writes there in
this execution. -/
def stdout (env : Env κ) : List (Event κ) → String
  | [] => ""
  | Event.println s :: t => printlnBytes s ++ stdout env t
  | e :: t => env.collaboratorStdout e ++ stdout env t

/-- The number of lines of an output text: the number of newline characters
in it. -/
def lineCount (out : String) : Nat := out.toList.count '\n'

/-- Modelled from the spec: `gptCompletion` is not in `root.go`; this is the
prompt text it sends to the completion backend for the argument list it
receives, "the arguments joined with single spaces" (spec, sections 3 and
8). -/
def promptRequestText (args : List String) : String := " ".intercalate args

/-! ## Sample executions -/

/-- Every collaborator succeeds, confirmation is disabled, and cobra hands
the positional arguments `create a pod named foo` to `RunE`. -/
def envAuto : Env String where
  flagParse := none
  collaboratorStdout := fun _ => ""
  openAIDeploymentName := "text-davinci-003"
  openAIAPIKey := "sk-test"
  requireConfirmation := false
  newOAIClients := ("openai", none)
  gptCompletion := fun _ _ _ => ("apiVersion: v1\nkind: Pod\n...", none)
  promptRun := fun _ => (1, "Don't Apply", none)
  applyManifest := fun _ => none
  cobraExecute := fun cmd => cmd.RunE ["create", "a", "pod", "named", "foo"]

/-- Confirmation is required, the selection is drawn on standard output and
the user selects the second item. -/
def envDecline : Env String :=
  { envAuto with
    requireConfirmation := true,
    collaboratorStdout := fun e =>
      match e with
      | Event.promptRun p => "? " ++ p.Label ++ ": \n  > Apply\n    Don't Apply\n"
      | _ => "" }

/-- Confirmation is required and the user selects the first item. -/
def envAccept : Env String :=
  { envAuto with requireConfirmation := true, promptRun := fun _ => (0, "Apply", none) }

/-- Confirmation is required and the selection is interrupted. -/
def envInterrupt : Env String :=
  { envAuto with requireConfirmation := true, promptRun := fun _ => (0, "", some ⟨"^C"⟩) }

/-- Building the clients fails. -/
def envNoClient : Env String :=
  { envAuto with newOAIClients := ("", some ⟨"invalid endpoint"⟩) }

/-- The completion call fails. -/
def envNoCompletion : Env String :=
  { envAuto with gptCompletion := fun _ _ _ => ("", some ⟨"context canceled"⟩) }

/-- The apply call fails. -/
def envNoApply : Env String :=
  { envAuto with applyManifest := fun _ => some ⟨"error validating data"⟩ }

/-- The api key is missing. -/
def envNoKey : Env String := { envAuto with openAIAPIKey := "" }

/-- The api key is set and the command line carries a flag that Go's flag set
does not define (such as `--namespace`, registered on the cobra command
only): `flag.Parse()` exits with status 2. -/
def envUndefinedFlag : Env String := { envAuto with flagParse := some 2 }

/-! ## Theorems -/

/-- When `newOAIClients` fails, `run` returns its error after that one call. -/
theorem run_clients_fail (env : Env κ) (args : List String) (e : Error)
    (h : env.newOAIClients.2 = some e) :
    run env args = ⟨some e, [Event.newOAIClients]⟩ := by
  simp [run, h]

/-- When `gptCompletion` fails, `run` returns its error after two calls. -/
theorem run_completion_fail (env : Env κ) (args : List String) (e : Error)
    (h1 : env.newOAIClients.2 = none)
    (h2 : (env.gptCompletion env.newOAIClients.1 args env.openAIDeploymentName).2 = some e) :
    run env args = ⟨some e, [Event.newOAIClients,
      Event.gptCompletion env.newOAIClients.1 args env.openAIDeploymentName]⟩ := by
  simp [run, h1, h2]

/-- When `getUserConfirmation` fails, `run` returns its error after printing. -/
theorem run_confirm_fail (env : Env κ) (args : List String) (e : Error)
    (h1 : env.newOAIClients.2 = none)
    (h2 : (env.gptCompletion env.newOAIClients.1 args env.openAIDeploymentName).2 = none)
    (h3 : (getUserConfirmation env).val.2 = some e) :
    run env args = ⟨some e, [Event.newOAIClients,
      Event.gptCompletion env.newOAIClients.1 args env.openAIDeploymentName,
      Event.println ("✨ Attempting to apply the following manifest: " ++
        (env.gptCompletion env.newOAIClients.1 args env.openAIDeploymentName).1)] ++
      (getUserConfirmation env).trace⟩ := by
  simp [run, h1, h2, h3]

/-- When `getUserConfirmation` returns `(false, nil)`, `run` returns nil and
does not apply. -/
theorem run_declined (env : Env κ) (args : List String)
    (h1 : env.newOAIClients.2 = none)
    (h2 : (env.gptCompletion env.newOAIClients.1 args env.openAIDeploymentName).2 = none)
    (h3 : (getUserConfirmation env).val = (false, none)) :
    run env args = ⟨none, [Event.newOAIClients,
      Event.gptCompletion env.newOAIClients.1 args env.openAIDeploymentName,
      Event.println ("✨ Attempting to apply the following manifest: " ++
        (env.gptCompletion env.newOAIClients.1 args env.openAIDeploymentName).1)] ++
      (getUserConfirmation env).trace⟩ := by
  simp [run, h1, h2, h3]

/-- When `getUserConfirmation` returns `(true, nil)`, `run` applies the
completion and returns what `applyManifest` returns. -/
theorem run_confirmed (env : Env κ) (args : List String)
    (h1 : env.newOAIClients.2 = none)
    (h2 : (env.gptCompletion env.newOAIClients.1 args env.openAIDeploymentName).2 = none)
    (h3 : (getUserConfirmation env).val = (true, none)) :
    run env args =
      ⟨env.applyManifest (env.gptCompletion env.newOAIClients.1 args env.openAIDeploymentName).1,
       [Event.newOAIClients,
        Event.gptCompletion env.newOAIClients.1 args env.openAIDeploymentName,
        Event.println ("✨ Attempting to apply the following manifest: " ++
          (env.gptCompletion env.newOAIClients.1 args env.openAIDeploymentName).1)] ++
        (getUserConfirmation env).trace ++
        [Event.applyManifest
          (env.gptCompletion env.newOAIClients.1 args env.openAIDeploymentName).1]⟩ := by
  simp [run, h1, h2, h3]
  intro h
  exact h.symm

/-- The three shapes of what `getUserConfirmation` returns. -/
theorem getUserConfirmation_val_cases (env : Env κ) :
    (getUserConfirmation env).val = (true, none) ∨
      (getUserConfirmation env).val = (false, none) ∨
      ∃ e, (getUserConfirmation env).val = (false, some e) := by
  simp only [getUserConfirmation]
  split
  · split
    · rename_i h
      obtain ⟨e, he⟩ := Option.ne_none_iff_exists'.mp h
      exact Or.inr (Or.inr ⟨e, by simp [he]⟩)
    · by_cases hs : (env.promptRun
          ⟨"Would you like to apply this? [Apply/Don't Apply]",
            ["Apply", "Don't Apply"]⟩).2.1 = "Apply"
      · exact Or.inl (by simp [hs])
      · exact Or.inr (Or.inl (by simp [hs]))
  · exact Or.inl (by simp)

/-- The calls `getUserConfirmation` makes: none, or the one selection. -/
theorem getUserConfirmation_trace_cases (env : Env κ) :
    (getUserConfirmation env).trace = [] ∨
      (getUserConfirmation env).trace =
        [Event.promptRun ⟨"Would you like to apply this? [Apply/Don't Apply]",
          ["Apply", "Don't Apply"]⟩] := by
  simp only [getUserConfirmation]
  split
  · split <;> exact Or.inr rfl
  · exact Or.inl rfl

theorem appliedManifests_append (a b : List (Event κ)) :
    appliedManifests (a ++ b) = appliedManifests a ++ appliedManifests b := by
  induction a with
  | nil => rfl
  | cons x t ih => cases x <;> simp [appliedManifests, ih]

theorem printedTexts_append (a b : List (Event κ)) :
    printedTexts (a ++ b) = printedTexts a ++ printedTexts b := by
  induction a with
  | nil => rfl
  | cons x t ih => cases x <;> simp [printedTexts, ih]

theorem promptsRun_append (a b : List (Event κ)) :
    promptsRun (a ++ b) = promptsRun a ++ promptsRun b := by
  induction a with
  | nil => rfl
  | cons x t ih => cases x <;> simp [promptsRun, ih]

theorem completionCalls_append (a b : List (Event κ)) :
    completionCalls (a ++ b) = completionCalls a ++ completionCalls b := by
  induction a with
  | nil => rfl
  | cons x t ih => cases x <;> simp [completionCalls, ih]

theorem clientBuilds_append (a b : List (Event κ)) :
    clientBuilds (a ++ b) = clientBuilds a + clientBuilds b := by
  induction a with
  | nil => simp [clientBuilds]
  | cons x t ih =>
    cases x <;> simp [clientBuilds, ih]
    omega

/-- The confirmation gate never applies a manifest itself. -/
theorem getUserConfirmation_applies_nothing (env : Env κ) :
    appliedManifests (getUserConfirmation env).trace = [] := by
  rcases getUserConfirmation_trace_cases env with h | h <;> simp [h, appliedManifests]

/-- C2: with `requireConfirmation` false, `getUserConfirmation` returns
`(true, nil)` and makes no collaborator call at all (its trace is empty, so the
selection prompt is not run), whatever the prompt, the completion backend or
any other collaborator would answer. -/
theorem getUserConfirmation_disabled (env : Env κ)
    (h : env.requireConfirmation = false) :
    (getUserConfirmation env).val = (true, none) ∧
      (getUserConfirmation env).trace = [] := by
  simp [getUserConfirmation, h]

theorem getUserConfirmation_disabled_witness :
    envAuto.requireConfirmation = false ∧
      (getUserConfirmation envAuto).val = (true, none) ∧
      (getUserConfirmation envAuto).trace = [] :=
  ⟨rfl, getUserConfirmation_disabled envAuto rfl⟩

/-- C3: with `requireConfirmation` true, `getUserConfirmation` runs exactly one
selection, whose items are `"Apply"` and `"Don't Apply"` in that order; when
that selection answers label `s` without error, the function returns `(b, nil)`
with `b` true if and only if `s` is the string `"Apply"`. -/
theorem getUserConfirmation_selected (env : Env κ)
    (h : env.requireConfirmation = true) :
    ∃ p : Select,
      (getUserConfirmation env).trace = [Event.promptRun p] ∧
      p.Items = ["Apply", "Don't Apply"] ∧
      ∀ (i : Int) (s : String), env.promptRun p = (i, s, none) →
        ∃ b : Bool, (getUserConfirmation env).val = (b, none) ∧
          (b = true ↔ s = "Apply") := by
  refine ⟨⟨"Would you like to apply this? [Apply/Don't Apply]",
    ["Apply", "Don't Apply"]⟩, ?_, rfl, ?_⟩
  · simp only [getUserConfirmation, h, if_true]
    split <;> rfl
  · intro i s hp
    refine ⟨decide (s = "Apply"), ?_, by simp⟩
    simp [getUserConfirmation, h, hp]

theorem getUserConfirmation_selected_witness :
    envDecline.requireConfirmation = true ∧
      (getUserConfirmation envDecline).val = (false, none) ∧
      (getUserConfirmation envAccept).val = (true, none) := by
  refine ⟨rfl, ?_, ?_⟩
  · obtain ⟨p, _, _, hsel⟩ := getUserConfirmation_selected envDecline rfl
    obtain ⟨b, hb, hiff⟩ := hsel 1 "Don't Apply" rfl
    have hfalse : b = false := by
      cases b
      · rfl
      · exact absurd (hiff.mp rfl) (by decide)
    rw [hb, hfalse]
  · obtain ⟨p, _, _, hsel⟩ := getUserConfirmation_selected envAccept rfl
    obtain ⟨b, hb, hiff⟩ := hsel 0 "Apply" rfl
    rw [hb, hiff.mpr rfl]

/-- C1: in every execution of `run`, if `applyManifest` is invoked then
`getUserConfirmation` returned `(true, nil)`, the apply call is the last call
of the run and comes after all calls of the confirmation gate, and nothing
was applied before; in particular, with `requireConfirmation` true and the
selection answering the label `"Don't Apply"`, nothing is applied. -/
theorem apply_only_after_confirmation (env : Env κ) (args : List String) :
    (appliedManifests (run env args).trace ≠ [] →
      (getUserConfirmation env).val = (true, none) ∧
      ∃ (pre : List (Event κ)) (c : String),
        (run env args).trace =
          pre ++ (getUserConfirmation env).trace ++ [Event.applyManifest c] ∧
        appliedManifests (pre ++ (getUserConfirmation env).trace) = []) ∧
    (env.requireConfirmation = true →
      (env.promptRun ⟨"Would you like to apply this? [Apply/Don't Apply]",
        ["Apply", "Don't Apply"]⟩).2.1 = "Don't Apply" →
      appliedManifests (run env args).trace = []) := by
  have key : (getUserConfirmation env).val ≠ (true, none) →
      appliedManifests (run env args).trace = [] := by
    intro hne
    cases h1 : env.newOAIClients.2 with
    | some e => simp [run_clients_fail env args e h1, appliedManifests]
    | none =>
      cases h2 : (env.gptCompletion env.newOAIClients.1 args env.openAIDeploymentName).2 with
      | some e => simp [run_completion_fail env args e h1 h2, appliedManifests]
      | none =>
        rcases getUserConfirmation_val_cases env with h3 | h3 | ⟨e, h3⟩
        · exact absurd h3 hne
        · rw [run_declined env args h1 h2 h3]
          simp [appliedManifests_append, appliedManifests,
            getUserConfirmation_applies_nothing]
        · rw [run_confirm_fail env args e h1 h2 (by rw [h3])]
          simp [appliedManifests_append, appliedManifests,
            getUserConfirmation_applies_nothing]
  refine ⟨fun happ => ?_, fun hreq hsel => ?_⟩
  · have h3 : (getUserConfirmation env).val = (true, none) := by
      by_contra hne
      exact happ (key hne)
    refine ⟨h3, ?_⟩
    cases h1 : env.newOAIClients.2 with
    | some e =>
      rw [run_clients_fail env args e h1] at happ
      simp [appliedManifests] at happ
    | none =>
      cases h2 : (env.gptCompletion env.newOAIClients.1 args env.openAIDeploymentName).2 with
      | some e =>
        rw [run_completion_fail env args e h1 h2] at happ
        simp [appliedManifests] at happ
      | none =>
        refine ⟨_, _, by rw [run_confirmed env args h1 h2 h3], ?_⟩
        simp [appliedManifests_append, appliedManifests,
          getUserConfirmation_applies_nothing]
  · apply key
    simp [getUserConfirmation, hreq, hsel]
    split <;> simp

theorem apply_only_after_confirmation_witness :
    appliedManifests (run envAccept ["create", "a", "pod"]).trace ≠ [] ∧
      (getUserConfirmation envAccept).val = (true, none) ∧
      envDecline.requireConfirmation = true ∧
      (envDecline.promptRun ⟨"Would you like to apply this? [Apply/Don't Apply]",
        ["Apply", "Don't Apply"]⟩).2.1 = "Don't Apply" ∧
      appliedManifests (run envDecline ["create", "a", "pod"]).trace = [] :=
  have hA : appliedManifests (run envAccept ["create", "a", "pod"]).trace ≠ [] := by
    decide
  ⟨hA, ((apply_only_after_confirmation envAccept ["create", "a", "pod"]).1 hA).1,
    rfl, rfl,
    (apply_only_after_confirmation envDecline ["create", "a", "pod"]).2 rfl rfl⟩

/-- C4: with `requireConfirmation` true and the selection failing with error
`e`, `getUserConfirmation` returns `(false, e)`; every run that reaches the
selection (equivalently, whose client construction and completion succeed)
returns that same `e`, and no run applies anything. -/
theorem confirmation_error_aborts (env : Env κ) (e : Error)
    (hreq : env.requireConfirmation = true)
    (herr : (env.promptRun ⟨"Would you like to apply this? [Apply/Don't Apply]",
      ["Apply", "Don't Apply"]⟩).2.2 = some e) :
    (getUserConfirmation env).val = (false, some e) ∧
    ∀ args : List String,
      appliedManifests (run env args).trace = [] ∧
      (promptsRun (run env args).trace ≠ [] → (run env args).val = some e) ∧
      (env.newOAIClients.2 = none →
        (env.gptCompletion env.newOAIClients.1 args env.openAIDeploymentName).2 = none →
        (run env args).val = some e ∧ promptsRun (run env args).trace ≠ []) := by
  have hv : (getUserConfirmation env).val = (false, some e) := by
    simp [getUserConfirmation, hreq, herr]
  have ht : (getUserConfirmation env).trace =
      [Event.promptRun ⟨"Would you like to apply this? [Apply/Don't Apply]",
        ["Apply", "Don't Apply"]⟩] := by
    simp [getUserConfirmation, hreq, herr]
  refine ⟨hv, fun args => ?_⟩
  cases h1 : env.newOAIClients.2 with
  | some e1 =>
    simp [run_clients_fail env args e1 h1, appliedManifests, promptsRun]
  | none =>
    cases h2 : (env.gptCompletion env.newOAIClients.1 args env.openAIDeploymentName).2 with
    | some e2 =>
      simp [run_completion_fail env args e2 h1 h2, appliedManifests, promptsRun]
    | none =>
      rw [run_confirm_fail env args e h1 h2 (by rw [hv])]
      simp [ht, appliedManifests, promptsRun]

theorem confirmation_error_aborts_witness :
    envInterrupt.requireConfirmation = true ∧
      (getUserConfirmation envInterrupt).val = (false, some ⟨"^C"⟩) ∧
      (run envInterrupt ["create", "a", "pod"]).val = some ⟨"^C"⟩ ∧
      appliedManifests (run envInterrupt ["create", "a", "pod"]).trace = [] :=
  have h := confirmation_error_aborts envInterrupt ⟨"^C"⟩ rfl rfl
  ⟨rfl, h.1, ((h.2 ["create", "a", "pod"]).2.2 rfl rfl).1,
    (h.2 ["create", "a", "pod"]).1⟩

/-- C5: for the empty argument list the root command's `RunE` returns the
error "prompt must be provided" and makes no collaborator call, hence does
not call `run` (every call of `run` starts by calling `newOAIClients`); for
every non-empty argument list `RunE` returns exactly what `run` returns,
after exactly the calls of `run`. -/
theorem RunE_usage (env : Env κ) :
    (RootCmd env).val.RunE [] = ⟨some ⟨"prompt must be provided"⟩, []⟩ ∧
    (∀ args : List String, ∃ rest, (run env args).trace = Event.newOAIClients :: rest) ∧
    (∀ args : List String, args ≠ [] → (RootCmd env).val.RunE args = run env args) := by
  refine ⟨by simp [RootCmd, RunE], fun args => ?_, fun args hargs => ?_⟩
  · cases h1 : env.newOAIClients.2 with
    | some e => exact ⟨_, by rw [run_clients_fail env args e h1]⟩
    | none =>
      cases h2 : (env.gptCompletion env.newOAIClients.1 args env.openAIDeploymentName).2 with
      | some e => exact ⟨_, by rw [run_completion_fail env args e h1 h2]⟩
      | none =>
        rcases getUserConfirmation_val_cases env with h3 | h3 | ⟨e, h3⟩
        · exact ⟨_, by rw [run_confirmed env args h1 h2 h3]; rfl⟩
        · exact ⟨_, by rw [run_declined env args h1 h2 h3]; rfl⟩
        · exact ⟨_, by rw [run_confirm_fail env args e h1 h2 (by rw [h3])]; rfl⟩
  · have hlen : args.length ≠ 0 := by
      intro h
      exact hargs (List.length_eq_zero.mp h)
    simp only [RootCmd, RunE, hlen, if_false]
    split
    · rfl
    · rename_i h
      have hv : (run env args).val = none := by simpa using h
      cases hr : run env args with
      | mk v t =>
        rw [hr] at hv
        simp at hv
        simp [hv]

theorem RunE_usage_witness :
    (RootCmd envAuto).val.RunE [] = ⟨some ⟨"prompt must be provided"⟩, []⟩ ∧
      ["deploy", "nginx"] ≠ [] ∧
      (RootCmd envAuto).val.RunE ["deploy", "nginx"] = run envAuto ["deploy", "nginx"] :=
  ⟨(RunE_usage envAuto).1, by decide,
    (RunE_usage envAuto).2.2 ["deploy", "nginx"] (by decide)⟩

/-- C6: for a non-empty argument list, with confirmation disabled, client
construction succeeding and the completion call returning text `t` without
error, `run` makes exactly four calls: client construction, the completion
call, the print of the banner followed by `t`, and one `applyManifest` call
whose argument is `t` itself; it returns what that apply returns, so nil when
the apply succeeds, and then `RunE` returns nil and, when `flag.Parse()` has
returned and cobra hands these arguments to `RunE`, `InitAndExecute` returns
without calling `os.Exit(1)` (exit status 0). -/
theorem run_applies_exactly_once (env : Env κ) (args : List String) (t : String)
    (hargs : args ≠ [])
    (hconf : env.requireConfirmation = false)
    (hc : env.newOAIClients.2 = none)
    (hg : env.gptCompletion env.newOAIClients.1 args env.openAIDeploymentName = (t, none)) :
    (run env args).trace =
      [Event.newOAIClients,
       Event.gptCompletion env.newOAIClients.1 args env.openAIDeploymentName,
       Event.println ("✨ Attempting to apply the following manifest: " ++ t),
       Event.applyManifest t] ∧
    appliedManifests (run env args).trace = [t] ∧
    (run env args).val = env.applyManifest t ∧
    (env.applyManifest t = none →
      (run env args).val = none ∧
      ((RootCmd env).val.RunE args).val = none ∧
      (env.flagParse = none → env.openAIAPIKey ≠ "" →
        env.cobraExecute (RootCmd env).val = (RootCmd env).val.RunE args →
        (InitAndExecute env).val = none)) := by
  have h2 : (env.gptCompletion env.newOAIClients.1 args env.openAIDeploymentName).2 = none := by
    rw [hg]
  have h3 : (getUserConfirmation env).val = (true, none) := by
    simp [getUserConfirmation, hconf]
  have ht : (getUserConfirmation env).trace = [] := by
    simp [getUserConfirmation, hconf]
  have hrun := run_confirmed env args hc h2 h3
  rw [ht, hg] at hrun
  have hlen : args.length ≠ 0 := by
    intro h
    exact hargs (List.length_eq_zero.mp h)
  refine ⟨by rw [hrun]; rfl, by rw [hrun]; simp [appliedManifests], by rw [hrun],
    fun hok => ?_⟩
  have hval : (run env args).val = none := by rw [hrun]; exact hok
  have hR : ((RootCmd env).val.RunE args).val = none := by
    simp [RootCmd, RunE, hlen, hval]
  refine ⟨hval, hR, fun hparse hkey hex => ?_⟩
  simp only [InitAndExecute, hparse, hkey, if_false]
  rw [hex, hR]

theorem run_applies_exactly_once_witness :
    (run envAuto ["create", "a", "pod", "named", "foo"]).trace =
      [Event.newOAIClients,
       Event.gptCompletion "openai" ["create", "a", "pod", "named", "foo"] "text-davinci-003",
       Event.println
         ("✨ Attempting to apply the following manifest: " ++ "apiVersion: v1\nkind: Pod\n..."),
       Event.applyManifest "apiVersion: v1\nkind: Pod\n..."] ∧
      (run envAuto ["create", "a", "pod", "named", "foo"]).val = none ∧
      (InitAndExecute envAuto).val = none :=
  have h := run_applies_exactly_once envAuto ["create", "a", "pod", "named", "foo"]
    "apiVersion: v1\nkind: Pod\n..." (by decide) rfl rfl rfl
  ⟨h.1, (h.2.2.2 rfl).1, (h.2.2.2 rfl).2.2 rfl (by decide) rfl⟩

/-- C7: every failure is terminal for `run`.  Whichever of client
construction, completion, confirmation and apply is the first to fail with
error `e`, `run` returns exactly `e` and its calls stop at the failing stage:
a client failure is followed by no completion call; a completion failure by no
print, no selection and no apply; a confirmation failure by no apply; and in
every execution each stage (and the print) is invoked at most once. -/
theorem run_failure_terminal (env : Env κ) (args : List String) :
    (∀ e, env.newOAIClients.2 = some e →
      run env args = ⟨some e, [Event.newOAIClients]⟩) ∧
    (∀ e, env.newOAIClients.2 = none →
      (env.gptCompletion env.newOAIClients.1 args env.openAIDeploymentName).2 = some e →
      run env args = ⟨some e, [Event.newOAIClients,
        Event.gptCompletion env.newOAIClients.1 args env.openAIDeploymentName]⟩ ∧
      printedTexts (run env args).trace = [] ∧
      promptsRun (run env args).trace = [] ∧
      appliedManifests (run env args).trace = []) ∧
    (∀ e, env.newOAIClients.2 = none →
      (env.gptCompletion env.newOAIClients.1 args env.openAIDeploymentName).2 = none →
      (getUserConfirmation env).val.2 = some e →
      run env args = ⟨some e, [Event.newOAIClients,
        Event.gptCompletion env.newOAIClients.1 args env.openAIDeploymentName,
        Event.println ("✨ Attempting to apply the following manifest: " ++
          (env.gptCompletion env.newOAIClients.1 args env.openAIDeploymentName).1)] ++
        (getUserConfirmation env).trace⟩ ∧
      appliedManifests (run env args).trace = []) ∧
    (∀ e, env.newOAIClients.2 = none →
      (env.gptCompletion env.newOAIClients.1 args env.openAIDeploymentName).2 = none →
      (getUserConfirmation env).val = (true, none) →
      env.applyManifest
        (env.gptCompletion env.newOAIClients.1 args env.openAIDeploymentName).1 = some e →
      run env args = ⟨some e, [Event.newOAIClients,
        Event.gptCompletion env.newOAIClients.1 args env.openAIDeploymentName,
        Event.println ("✨ Attempting to apply the following manifest: " ++
          (env.gptCompletion env.newOAIClients.1 args env.openAIDeploymentName).1)] ++
        (getUserConfirmation env).trace ++
        [Event.applyManifest
          (env.gptCompletion env.newOAIClients.1 args env.openAIDeploymentName).1]⟩) ∧
    (clientBuilds (run env args).trace ≤ 1 ∧
      (completionCalls (run env args).trace).length ≤ 1 ∧
      (printedTexts (run env args).trace).length ≤ 1 ∧
      (promptsRun (run env args).trace).length ≤ 1 ∧
      (appliedManifests (run env args).trace).length ≤ 1) := by
  refine ⟨fun e h1 => run_clients_fail env args e h1, fun e h1 h2 => ?_,
    fun e h1 h2 h3 => ?_, fun e h1 h2 h3 h4 => ?_, ?_⟩
  · refine ⟨run_completion_fail env args e h1 h2, ?_⟩
    rw [run_completion_fail env args e h1 h2]
    simp [printedTexts, promptsRun, appliedManifests]
  · refine ⟨run_confirm_fail env args e h1 h2 h3, ?_⟩
    rw [run_confirm_fail env args e h1 h2 h3]
    simp [appliedManifests_append, appliedManifests, getUserConfirmation_applies_nothing]
  · rw [run_confirmed env args h1 h2 h3, h4]
  · cases h1 : env.newOAIClients.2 with
    | some e =>
      rw [run_clients_fail env args e h1]
      simp [clientBuilds, completionCalls, printedTexts, promptsRun, appliedManifests]
    | none =>
      cases h2 : (env.gptCompletion env.newOAIClients.1 args env.openAIDeploymentName).2 with
      | some e =>
        rw [run_completion_fail env args e h1 h2]
        simp [clientBuilds, completionCalls, printedTexts, promptsRun, appliedManifests]
      | none =>
        rcases getUserConfirmation_val_cases env with h3 | h3 | ⟨e, h3⟩
        · rw [run_confirmed env args h1 h2 h3]
          rcases getUserConfirmation_trace_cases env with ht | ht <;>
            simp [ht, clientBuilds, completionCalls, printedTexts, promptsRun,
              appliedManifests]
        · rw [run_declined env args h1 h2 h3]
          rcases getUserConfirmation_trace_cases env with ht | ht <;>
            simp [ht, clientBuilds, completionCalls, printedTexts, promptsRun,
              appliedManifests]
        · rw [run_confirm_fail env args e h1 h2 (by rw [h3])]
          rcases getUserConfirmation_trace_cases env with ht | ht <;>
            simp [ht, clientBuilds, completionCalls, printedTexts, promptsRun,
              appliedManifests]

theorem run_failure_terminal_witness :
    run envNoClient ["create", "a", "pod"] =
        ⟨some ⟨"invalid endpoint"⟩, [Event.newOAIClients]⟩ ∧
      run envNoCompletion ["create", "a", "pod"] =
        ⟨some ⟨"context canceled"⟩, [Event.newOAIClients,
          Event.gptCompletion "openai" ["create", "a", "pod"] "text-davinci-003"]⟩ ∧
      (run envInterrupt ["create", "a", "pod"]).val = some ⟨"^C"⟩ ∧
      (run envNoApply ["create", "a", "pod"]).val = some ⟨"error validating data"⟩ :=
  ⟨(run_failure_terminal envNoClient ["create", "a", "pod"]).1 ⟨"invalid endpoint"⟩ rfl,
    ((run_failure_terminal envNoCompletion ["create", "a", "pod"]).2.1
      ⟨"context canceled"⟩ rfl rfl).1,
    congrArg Outcome.val
      ((run_failure_terminal envInterrupt ["create", "a", "pod"]).2.2.1
        ⟨"^C"⟩ rfl rfl rfl).1,
    congrArg Outcome.val
      ((run_failure_terminal envNoApply ["create", "a", "pod"]).2.2.2.1
        ⟨"error validating data"⟩ rfl rfl rfl rfl)⟩

/-- C8 as stated fails: with a non-empty api key and a command line carrying
a flag that Go's flag set does not define, `flag.Parse()` ends the process
with status 2; the process exits with a non-zero status although the root
command is never built or executed, even where `Execute` would have returned
no error. -/
theorem InitAndExecute_flag_error_counterexample :
    envUndefinedFlag.openAIAPIKey ≠ "" ∧
      InitAndExecute envUndefinedFlag = ⟨some 2, [Event.flagParse]⟩ ∧
      (envUndefinedFlag.cobraExecute (RootCmd envUndefinedFlag).val).val = none ∧
      ¬ ((∃ n, (InitAndExecute envUndefinedFlag).val = some n ∧ n ≠ 0) ↔
        (envUndefinedFlag.cobraExecute (RootCmd envUndefinedFlag).val).val ≠ none) := by
  refine ⟨by decide, rfl, rfl, ?_⟩
  intro h
  exact h.mp ⟨2, rfl, by decide⟩ rfl

/-- C8, amended: when `flag.Parse()` ends the process, `InitAndExecute` does
nothing else.  When `flag.Parse()` returns and the api key is empty,
`InitAndExecute` prints "Please provide an OpenAI key." and exits with status
1 having made no other call: the root command is neither built nor executed,
and no client construction, completion, selection or apply takes place.  When
`flag.Parse()` returns and the api key is non-empty, it builds the root
command, executes it, and ends the process with a non-zero status (always 1)
if and only if `Execute` returns an error; otherwise it returns to its
caller. -/
theorem InitAndExecute_exit (env : Env κ) :
    (∀ status, env.flagParse = some status →
      InitAndExecute env = ⟨some status, [Event.flagParse]⟩) ∧
    (env.flagParse = none → env.openAIAPIKey = "" →
      InitAndExecute env =
        ⟨some 1, [Event.flagParse, Event.println "Please provide an OpenAI key."]⟩) ∧
    (env.flagParse = none → env.openAIAPIKey ≠ "" →
      ((∃ n, (InitAndExecute env).val = some n ∧ n ≠ 0) ↔
        (env.cobraExecute (RootCmd env).val).val ≠ none) ∧
      ((InitAndExecute env).val = some 1 ∨ (InitAndExecute env).val = none) ∧
      ∃ rest, (InitAndExecute env).trace =
        Event.flagParse :: Event.newConfigFlags :: Event.execute :: rest) := by
  refine ⟨fun status hp => by simp [InitAndExecute, hp],
    fun hp h => by simp [InitAndExecute, hp, h], fun hp h => ?_⟩
  simp only [InitAndExecute, hp, h, if_false]
  cases hr : (env.cobraExecute (RootCmd env).val).val with
  | none => simp [RootCmd]
  | some e => simp [RootCmd]

theorem InitAndExecute_exit_witness :
    envNoKey.flagParse = none ∧ envNoKey.openAIAPIKey = "" ∧
      InitAndExecute envNoKey =
        ⟨some 1, [Event.flagParse, Event.println "Please provide an OpenAI key."]⟩ ∧
      envNoApply.openAIAPIKey ≠ "" ∧
      (InitAndExecute envNoApply).val = some 1 ∧
      (InitAndExecute envAuto).val = none :=
  ⟨rfl, rfl, (InitAndExecute_exit envNoKey).2.1 rfl rfl, by decide,
    ((InitAndExecute_exit envNoApply).2.2 rfl (by decide)).2.1.resolve_right (by decide),
    ((InitAndExecute_exit envAuto).2.2 rfl (by decide)).2.1.resolve_left (by decide)⟩

theorem stdout_append (env : Env κ) (a b : List (Event κ)) :
    stdout env (a ++ b) = stdout env a ++ stdout env b := by
  induction a with
  | nil => simp [stdout]
  | cons x t ih => cases x <;> simp [stdout, ih, String.append_assoc]

theorem lineCount_append (a b : String) :
    lineCount (a ++ b) = lineCount a + lineCount b := by
  simp [lineCount, String.toList]

/-- The confirmation gate calls `fmt.Println` never. -/
theorem getUserConfirmation_prints_nothing (env : Env κ) :
    printedTexts (getUserConfirmation env).trace = [] := by
  rcases getUserConfirmation_trace_cases env with h | h <;> simp [h, printedTexts]

/-- C9 as stated fails: in the sample run whose completion is the manifest
`"apiVersion: v1\nkind: Pod\n..."` (confirmation disabled, no collaborator
writing on standard output), what `run` writes to standard output is three
lines, not a single line. -/
theorem banner_single_line_counterexample :
    envAuto.newOAIClients.2 = none ∧
      envAuto.gptCompletion envAuto.newOAIClients.1 ["create", "a", "pod", "named", "foo"]
        envAuto.openAIDeploymentName = ("apiVersion: v1\nkind: Pod\n...", none) ∧
      lineCount (stdout envAuto
        (run envAuto ["create", "a", "pod", "named", "foo"]).trace) = 3 ∧
      ¬ lineCount (stdout envAuto
        (run envAuto ["create", "a", "pod", "named", "foo"]).trace) = 1 := by
  refine ⟨rfl, rfl, ?_, ?_⟩ <;> decide

/-- C9, amended: for every completion text `c` returned successfully, `run`
calls `fmt.Println` exactly once, with the banner
"✨ Attempting to apply the following manifest: " followed by `c`; that call
writes the text and one newline, which is one line more than the line breaks
inside `c` (a single line exactly when `c` has none); the print comes right
after the completion call and before every call of the confirmation gate,
whether or not confirmation is required, so standard output holds what the
two earlier calls wrote, then the printed bytes, then what the selection (when
run) and the apply (when made) write; it has at least the printed lines. -/
theorem banner_printed_once (env : Env κ) (args : List String) (c : String)
    (hc : env.newOAIClients.2 = none)
    (hg : env.gptCompletion env.newOAIClients.1 args env.openAIDeploymentName = (c, none)) :
    printedTexts (run env args).trace =
      ["✨ Attempting to apply the following manifest: " ++ c] ∧
    lineCount (printlnBytes ("✨ Attempting to apply the following manifest: " ++ c)) =
      lineCount c + 1 ∧
    (lineCount (printlnBytes ("✨ Attempting to apply the following manifest: " ++ c)) = 1 ↔
      lineCount c = 0) ∧
    ∃ rest : List (Event κ),
      (run env args).trace =
        [Event.newOAIClients,
         Event.gptCompletion env.newOAIClients.1 args env.openAIDeploymentName,
         Event.println ("✨ Attempting to apply the following manifest: " ++ c)] ++
        (getUserConfirmation env).trace ++ rest ∧
      (rest = [] ∨ rest = [Event.applyManifest c]) ∧
      stdout env (run env args).trace =
        env.collaboratorStdout Event.newOAIClients ++
        env.collaboratorStdout
          (Event.gptCompletion env.newOAIClients.1 args env.openAIDeploymentName) ++
        printlnBytes ("✨ Attempting to apply the following manifest: " ++ c) ++
        stdout env (getUserConfirmation env).trace ++ stdout env rest ∧
      lineCount c + 1 ≤ lineCount (stdout env (run env args).trace) := by
  have h2 : (env.gptCompletion env.newOAIClients.1 args env.openAIDeploymentName).2 = none := by
    rw [hg]
  have hshape : ∃ rest : List (Event κ),
      (run env args).trace =
        [Event.newOAIClients,
         Event.gptCompletion env.newOAIClients.1 args env.openAIDeploymentName,
         Event.println ("✨ Attempting to apply the following manifest: " ++ c)] ++
        (getUserConfirmation env).trace ++ rest ∧
      (rest = [] ∨ rest = [Event.applyManifest c]) := by
    rcases getUserConfirmation_val_cases env with h3 | h3 | ⟨e, h3⟩
    · exact ⟨[Event.applyManifest c], by rw [run_confirmed env args hc h2 h3, hg],
        Or.inr rfl⟩
    · exact ⟨[], by rw [run_declined env args hc h2 h3, hg]; simp, Or.inl rfl⟩
    · exact ⟨[], by rw [run_confirm_fail env args e hc h2 (by rw [h3]), hg]; simp,
        Or.inl rfl⟩
  obtain ⟨rest, htrace, hrest⟩ := hshape
  have hprint : printedTexts (run env args).trace =
      ["✨ Attempting to apply the following manifest: " ++ c] := by
    rw [htrace]
    rcases hrest with h | h <;>
      simp [h, printedTexts_append, printedTexts, getUserConfirmation_prints_nothing]
  have hbanner : lineCount "✨ Attempting to apply the following manifest: " = 0 := by
    decide
  have hnl : lineCount "\n" = 1 := by decide
  have hbytes : lineCount
      (printlnBytes ("✨ Attempting to apply the following manifest: " ++ c)) =
      lineCount c + 1 := by
    rw [printlnBytes, lineCount_append, lineCount_append, hbanner, hnl]
    omega
  have hout : stdout env (run env args).trace =
      env.collaboratorStdout Event.newOAIClients ++
      env.collaboratorStdout
        (Event.gptCompletion env.newOAIClients.1 args env.openAIDeploymentName) ++
      printlnBytes ("✨ Attempting to apply the following manifest: " ++ c) ++
      stdout env (getUserConfirmation env).trace ++ stdout env rest := by
    rw [htrace, stdout_append, stdout_append]
    simp [stdout, String.append_assoc]
  have hge : lineCount c + 1 ≤ lineCount (stdout env (run env args).trace) := by
    rw [hout]
    simp only [lineCount_append]
    omega
  exact ⟨hprint, hbytes, by omega, rest, htrace, hrest, hout, hge⟩

theorem banner_printed_once_witness :
    printedTexts (run envDecline ["create", "a", "pod", "named", "foo"]).trace =
        ["✨ Attempting to apply the following manifest: " ++
          "apiVersion: v1\nkind: Pod\n..."] ∧
      lineCount (printlnBytes ("✨ Attempting to apply the following manifest: " ++
          "apiVersion: v1\nkind: Pod\n...")) =
        lineCount "apiVersion: v1\nkind: Pod\n..." + 1 ∧
      lineCount "apiVersion: v1\nkind: Pod\n..." + 1 ≤
        lineCount (stdout envDecline
          (run envDecline ["create", "a", "pod", "named", "foo"]).trace) ∧
      lineCount (stdout envDecline
        (run envDecline ["create", "a", "pod", "named", "foo"]).trace) = 6 := by
  have h := banner_printed_once envDecline ["create", "a", "pod", "named", "foo"]
    "apiVersion: v1\nkind: Pod\n..." rfl rfl
  obtain ⟨rest, _, _, _, hge⟩ := h.2.2.2
  exact ⟨h.1, h.2.1, hge, by decide⟩

/-- Joining with an accumulator: the accumulated text stays in front. -/
theorem intercalate_go_append (x y sep : String) (l : List String) :
    String.intercalate.go (x ++ y) sep l = x ++ String.intercalate.go y sep l := by
  induction l generalizing y with
  | nil => simp [String.intercalate.go]
  | cons a t ih =>
    simp only [String.intercalate.go]
    rw [String.append_assoc x y sep, String.append_assoc x (y ++ sep) a]
    exact ih (y ++ sep ++ a)

/-- C10: for every non-empty argument list, `RunE` (through `run`) makes one
call to `gptCompletion` when the clients are built, and hands it the argument
list itself, unchanged and in order, with the deployment name; the prompt
text built from that list is the arguments joined with single spaces: one
argument gives itself, and a further argument is appended after one space;
`["deploy","nginx"]` gives `"deploy nginx"`. -/
theorem prompt_joined_with_spaces (env : Env κ) (args : List String)
    (hargs : args ≠ []) (hc : env.newOAIClients.2 = none) :
    completionCalls ((RootCmd env).val.RunE args).trace =
      [(env.newOAIClients.1, args, env.openAIDeploymentName)] ∧
    (completionCalls ((RootCmd env).val.RunE args).trace).map
      (fun call => promptRequestText call.2.1) = [" ".intercalate args] ∧
    (∀ a : String, promptRequestText [a] = a) ∧
    (∀ (a b : String) (rest : List String),
      promptRequestText (a :: b :: rest) = a ++ " " ++ promptRequestText (b :: rest)) ∧
    promptRequestText ["deploy", "nginx"] = "deploy nginx" := by
  have hcalls : completionCalls ((RootCmd env).val.RunE args).trace =
      [(env.newOAIClients.1, args, env.openAIDeploymentName)] := by
    have hlen : args.length ≠ 0 := by
      intro h
      exact hargs (List.length_eq_zero.mp h)
    have hR : ((RootCmd env).val.RunE args).trace = (run env args).trace := by
      simp only [RootCmd, RunE, hlen, if_false]
      split <;> rfl
    rw [hR]
    cases h2 : (env.gptCompletion env.newOAIClients.1 args env.openAIDeploymentName).2 with
    | some e =>
      rw [run_completion_fail env args e hc h2]
      simp [completionCalls]
    | none =>
      rcases getUserConfirmation_val_cases env with h3 | h3 | ⟨e, h3⟩
      · rw [run_confirmed env args hc h2 h3]
        rcases getUserConfirmation_trace_cases env with ht | ht <;>
          simp [ht, completionCalls]
      · rw [run_declined env args hc h2 h3]
        rcases getUserConfirmation_trace_cases env with ht | ht <;>
          simp [ht, completionCalls]
      · rw [run_confirm_fail env args e hc h2 (by rw [h3])]
        rcases getUserConfirmation_trace_cases env with ht | ht <;>
          simp [ht, completionCalls]
  refine ⟨hcalls, by rw [hcalls]; rfl, fun a => rfl, fun a b rest => ?_, by decide⟩
  simp only [promptRequestText, String.intercalate, String.intercalate.go]
  rw [String.append_assoc a " " b, intercalate_go_append a (" " ++ b) " " rest,
    intercalate_go_append " " b " " rest, String.append_assoc]

theorem prompt_joined_with_spaces_witness :
    ["deploy", "nginx"] ≠ [] ∧
      completionCalls ((RootCmd envAuto).val.RunE ["deploy", "nginx"]).trace =
        [("openai", ["deploy", "nginx"], "text-davinci-003")] ∧
      promptRequestText ["deploy", "nginx"] = "deploy nginx" :=
  have h := prompt_joined_with_spaces envAuto ["deploy", "nginx"] (by decide) rfl
  ⟨by decide, h.1, h.2.2.2.2⟩

end KubectlAI
